import Mathlib

/-!
Verification of the TrueSight asynchronous verification pipeline.

The definitions below are a shallow embedding of the repository's core:
the AI-engine client with its circuit breaker (backend service
`aiEngineClient.ts`), the analysis record store (`analysisService.ts`,
`models/Analysis.ts`) and the orchestration task boundary
(`services/analysisProcessor.ts`).  Timestamps are modelled as integers
(milliseconds, as produced by `Date.now()`); the remote subsystem's
behaviour on one call is an explicit `CallOutcome` argument.

The Score Aggregator and Video Timeline Reducer live in the AI engine,
whose Python sources are not part of the repository snapshot (only their
documentation is); those two components are modelled from the
specification text and are marked as such.
-/

deriving instance DecidableEq for Except

namespace AiEngineClient

/-- Circuit-breaker state tag, from `aiEngineClient.ts` (`'CLOSED' | 'OPEN' | 'HALF_OPEN'`). -/
inductive BState
  | CLOSED
  | OPEN
  | HALF_OPEN
deriving DecidableEq, Repr

/-- The mutable circuit-breaker record of `aiEngineClient.ts`:
`{ failures, lastFailureTime, state }`. -/
structure CircuitBreakerState where
  failures : Nat
  lastFailureTime : Int
  state : BState
deriving DecidableEq, Repr

/-- `CIRCUIT_BREAKER_THRESHOLD = 5` — open the circuit after 5 failures. -/
def CIRCUIT_BREAKER_THRESHOLD : Nat := 5

/-- `CIRCUIT_BREAKER_TIMEOUT = 60000` ms — try again after 1 minute. -/
def CIRCUIT_BREAKER_TIMEOUT : Int := 60000

/-- `CIRCUIT_BREAKER_RESET_TIMEOUT = 30000` ms — reset after 30 s of success. -/
def CIRCUIT_BREAKER_RESET_TIMEOUT : Int := 30000

/-- The module-initialisation value of the breaker:
`{ failures: 0, lastFailureTime: 0, state: 'CLOSED' }`. -/
def initialBreaker : CircuitBreakerState :=
  { failures := 0, lastFailureTime := 0, state := .CLOSED }

/-- The `CustomError` shape thrown by the client (`message`, HTTP `statusCode`,
`code`); the free-form `details` payload is never persisted and is not modelled. -/
structure CustomError where
  message : String
  statusCode : Nat
  code : String
deriving DecidableEq, Repr

/-- `checkCircuitBreaker()` — in state `OPEN`, either transition to `HALF_OPEN`
(when more than `CIRCUIT_BREAKER_TIMEOUT` ms passed since the last failure)
or throw a 503 `AI_ENGINE_UNAVAILABLE` error; any other state passes through. -/
def checkCircuitBreaker (cb : CircuitBreakerState) (now : Int) :
    Except CustomError CircuitBreakerState :=
  match cb.state with
  | .OPEN =>
      if now - cb.lastFailureTime > CIRCUIT_BREAKER_TIMEOUT then
        .ok { cb with state := .HALF_OPEN }
      else
        .error { message := "AI Engine is temporarily unavailable. Please try again later.",
                 statusCode := 503, code := "AI_ENGINE_UNAVAILABLE" }
  | _ => .ok cb

/-- `recordFailure()` — increment `failures`, stamp `lastFailureTime`, and open
the circuit once the threshold is reached. -/
def recordFailure (cb : CircuitBreakerState) (now : Int) : CircuitBreakerState :=
  let cb1 := { cb with failures := cb.failures + 1, lastFailureTime := now }
  if cb1.failures ≥ CIRCUIT_BREAKER_THRESHOLD then
    { cb1 with state := .OPEN }
  else
    cb1

/-- `recordSuccess()` — `HALF_OPEN` closes the circuit and resets the counter;
in `CLOSED`, the counter resets after `CIRCUIT_BREAKER_RESET_TIMEOUT` ms of
quiet; in `OPEN` nothing changes. -/
def recordSuccess (cb : CircuitBreakerState) (now : Int) : CircuitBreakerState :=
  match cb.state with
  | .HALF_OPEN => { cb with state := .CLOSED, failures := 0 }
  | .CLOSED =>
      if now - cb.lastFailureTime > CIRCUIT_BREAKER_RESET_TIMEOUT then
        { cb with failures := 0 }
      else
        cb
  | .OPEN => cb

/-- The ways the axios call to the AI engine can fail, as discriminated by
`mapAIEngineError`: the error codes it inspects, an HTTP response carrying a
status and an optional `data.message` string, or any other axios error. -/
inductive AxiosErrorKind
  | ECONNABORTED
  | ETIMEDOUT
  | ECONNREFUSED
  | response (status : Nat) (dataMessage : Option String)
  | other (msg : String)
deriving DecidableEq, Repr

/-- JavaScript `a || b` on an optional string: `undefined` and the empty string
are falsy and select the fallback. -/
def jsOrString (a : Option String) (b : String) : String :=
  match a with
  | some s => if s = "" then b else s
  | none => b

/-- `mapAIEngineError()` — maps axios failures to backend `CustomError`s. -/
def mapAIEngineError : AxiosErrorKind → CustomError
  | .ECONNABORTED =>
      { message := "AI analysis timeout. The content may be too large or complex.",
        statusCode := 408, code := "ANALYSIS_TIMEOUT" }
  | .ETIMEDOUT =>
      { message := "AI analysis timeout. The content may be too large or complex.",
        statusCode := 408, code := "ANALYSIS_TIMEOUT" }
  | .ECONNREFUSED =>
      { message := "AI Engine is unavailable",
        statusCode := 503, code := "AI_ENGINE_UNAVAILABLE" }
  | .response status dataMessage =>
      if status = 400 then
        { message := jsOrString dataMessage "Invalid content for analysis",
          statusCode := 400, code := "INVALID_CONTENT" }
      else if status = 413 then
        { message := "Content too large for analysis",
          statusCode := 413, code := "CONTENT_TOO_LARGE" }
      else if status = 500 then
        { message := "AI analysis failed",
          statusCode := 500, code := "ANALYSIS_FAILED" }
      else
        { message := "Failed to communicate with AI Engine",
          statusCode := 500, code := "AI_ENGINE_ERROR" }
  | .other _ =>
      { message := "Failed to communicate with AI Engine",
        statusCode := 500, code := "AI_ENGINE_ERROR" }

/-- What the remote subsystem does on one call, for a payload type `α`:
a 2xx response with data, an axios-level failure, or a non-axios exception. -/
inductive CallOutcome (α : Type)
  | success (data : α)
  | axiosError (e : AxiosErrorKind)
  | nonAxiosError
deriving DecidableEq

/-- Result of one gateway call: the breaker state after the call, the value or
error produced, and whether the subsystem was actually contacted (the HTTP
post was issued). -/
structure GatewayResult (α : Type) where
  breaker : CircuitBreakerState
  result : Except CustomError α
  contacted : Bool
deriving DecidableEq

/-- The shared try/catch flow of `analyzeImage` / `analyzeVideo`:
`checkCircuitBreaker()`; post to the engine; `recordSuccess()` on success.
Every caught error runs `recordFailure()` and is rethrown as a `CustomError`
(already-`CustomError` errors — including the breaker's own 503 — pass
through, axios errors go through `mapAIEngineError`, anything else becomes
a generic 500 `ANALYSIS_FAILED`). -/
def gatewayCall {α : Type} (cb : CircuitBreakerState) (now : Int)
    (outcome : CallOutcome α) : GatewayResult α :=
  match checkCircuitBreaker cb now with
  | .error e => { breaker := recordFailure cb now, result := .error e, contacted := false }
  | .ok cb1 =>
      match outcome with
      | .success d =>
          { breaker := recordSuccess cb1 now, result := .ok d, contacted := true }
      | .axiosError e =>
          { breaker := recordFailure cb1 now, result := .error (mapAIEngineError e),
            contacted := true }
      | .nonAxiosError =>
          { breaker := recordFailure cb1 now,
            result := .error { message := "Unexpected error during analysis",
                               statusCode := 500, code := "ANALYSIS_FAILED" },
            contacted := true }

/-- Payload of a successful `/analyze/image` response, with the fields that
`processImageAnalysis` copies into the stored result; the nested blobs
(deepfake detection, heatmap, metadata) are opaque strings here. -/
structure ImagePayload where
  truthScore : Int
  aiGeneratedProbability : Int
  realProbability : Int
  deepfakeDetection : String
  manipulationHeatmap : Option String
  metadata : String
  predictedSource : String
  processingTime : Int
deriving DecidableEq, Repr

/-- Payload of a successful `/analyze/video` response; fields that
`processVideoAnalysis` reads with a JavaScript `||` fallback are optional. -/
structure VideoPayload where
  truthScore : Int
  aiGeneratedProbability : Option Int
  deepfakeDetection : String
  metadata : String
  predictedSource : Option String
  processingTime : Int
  frameAnalyses : List String
deriving DecidableEq, Repr

/-- `analyzeImage(filePath)` — breaker check, post, success/failure recording. -/
def analyzeImage (cb : CircuitBreakerState) (now : Int)
    (outcome : CallOutcome ImagePayload) : GatewayResult ImagePayload :=
  gatewayCall cb now outcome

/-- `analyzeVideo(filePath)` — identical control flow to `analyzeImage`
(only the endpoint, form field and timeout differ). -/
def analyzeVideo (cb : CircuitBreakerState) (now : Int)
    (outcome : CallOutcome VideoPayload) : GatewayResult VideoPayload :=
  gatewayCall cb now outcome

/-- One gateway invocation event: an image or a video analysis at a given
time with a given subsystem outcome. -/
inductive GEvent
  | img (now : Int) (outcome : CallOutcome ImagePayload)
  | vid (now : Int) (outcome : CallOutcome VideoPayload)

/-- Breaker evolution under one event. -/
def stepEvent (cb : CircuitBreakerState) : GEvent → CircuitBreakerState
  | .img now o => (analyzeImage cb now o).breaker
  | .vid now o => (analyzeVideo cb now o).breaker

/-- Breaker state after a sequence of gateway calls from process start. -/
def runEvents (evs : List GEvent) : CircuitBreakerState :=
  evs.foldl stepEvent initialBreaker

/-- A breaker state the process can actually be in after some call sequence. -/
def Reachable (cb : CircuitBreakerState) : Prop :=
  ∃ evs : List GEvent, runEvents evs = cb

end AiEngineClient

namespace AnalysisStore

open AiEngineClient

/-- `status` enum of the `Analysis` mongoose schema:
`['processing', 'completed', 'failed']`. -/
inductive Status
  | processing
  | completed
  | failed
deriving DecidableEq, Repr

/-- `contentType` enum of the `Analysis` schema. -/
inductive ContentType
  | image
  | video
deriving DecidableEq, Repr

/-- `sourceType` enum of the `Analysis` schema. -/
inductive SourceType
  | upload
  | url
  | screenshot
deriving DecidableEq, Repr

/-- The `result` subdocument written by the orchestrator (the fields of
`AnalysisResultSchema` that the processors fill in); nested blobs are opaque
strings, `videoTimeline` holds the engine's `frameAnalyses` opaquely. -/
structure StoredResult where
  truthScore : Int
  aiGeneratedProbability : Int
  realProbability : Int
  deepfakeDetection : String
  manipulationHeatmap : Option String
  metadata : String
  predictedSource : String
  processingTime : Int
  videoTimeline : Option (List String)
deriving DecidableEq, Repr

/-- An `Analysis` document (`models/Analysis.ts`): optional `result`, `error`
and `completedAt` alongside the status and intake fields. -/
structure AnalysisRecord where
  userId : Option String
  contentType : ContentType
  sourceType : SourceType
  sourceUrl : Option String
  filePath : String
  thumbnail : String
  status : Status
  result : Option StoredResult
  error : Option String
  createdAt : Int
  completedAt : Option Int
  expiresAt : Int
deriving DecidableEq, Repr

/-- `CreateAnalysisParams` of `analysisService.ts`. -/
structure CreateAnalysisParams where
  userId : Option String
  contentType : ContentType
  sourceType : SourceType
  sourceUrl : Option String
  filePath : String
  thumbnail : String
deriving DecidableEq, Repr

/-- `DEFAULT_TTL_DAYS = 30`, in milliseconds (the TTL is calendar-day based in
the source; the exact length is irrelevant to every property proved here). -/
def DEFAULT_TTL_MS : Int := 30 * 86400000

/-- `createAnalysis(params)` — a fresh record with `status: 'processing'` and
an expiry 30 days out; no `result`, `error` or `completedAt` yet. -/
def createAnalysis (p : CreateAnalysisParams) (now : Int) : AnalysisRecord :=
  { userId := p.userId
    contentType := p.contentType
    sourceType := p.sourceType
    sourceUrl := p.sourceUrl
    filePath := p.filePath
    thumbnail := p.thumbnail
    status := .processing
    result := none
    error := none
    createdAt := now
    completedAt := none
    expiresAt := now + DEFAULT_TTL_MS }

/-- `UpdateAnalysisParams` of `analysisService.ts` — the optional fields a
`$set` update may carry. -/
structure UpdateAnalysisParams where
  status : Option Status
  result : Option StoredResult
  error : Option String
  completedAt : Option Int
deriving DecidableEq, Repr

/-- `updateAnalysis(id, updates)` — mongoose `$set`: only the keys present in
the update are written, every other field keeps its value. -/
def updateAnalysis (r : AnalysisRecord) (u : UpdateAnalysisParams) : AnalysisRecord :=
  { r with
    status := u.status.getD r.status
    result := match u.result with | some v => some v | none => r.result
    error := match u.error with | some v => some v | none => r.error
    completedAt := match u.completedAt with | some v => some v | none => r.completedAt }

end AnalysisStore

namespace AnalysisProcessor

open AiEngineClient AnalysisStore

/-- JavaScript `a || b` on an optional number: `undefined` and `0` are falsy
and select the fallback. -/
def jsOrInt (a : Option Int) (b : Int) : Int :=
  match a with
  | some v => if v = 0 then b else v
  | none => b

/-- The `result` object `processImageAnalysis` stores on success, field by
field from the engine payload. -/
def storedImageResult (p : ImagePayload) : StoredResult :=
  { truthScore := p.truthScore
    aiGeneratedProbability := p.aiGeneratedProbability
    realProbability := p.realProbability
    deepfakeDetection := p.deepfakeDetection
    manipulationHeatmap := p.manipulationHeatmap
    metadata := p.metadata
    predictedSource := p.predictedSource
    processingTime := p.processingTime
    videoTimeline := none }

/-- The `result` object `processVideoAnalysis` stores on success:
`aiGeneratedProbability || 100 - truthScore`, `realProbability = truthScore`,
`predictedSource || 'Unknown'`, `videoTimeline = frameAnalyses`. -/
def storedVideoResult (p : VideoPayload) : StoredResult :=
  { truthScore := p.truthScore
    aiGeneratedProbability := jsOrInt p.aiGeneratedProbability (100 - p.truthScore)
    realProbability := p.truthScore
    deepfakeDetection := p.deepfakeDetection
    manipulationHeatmap := none
    metadata := p.metadata
    predictedSource := jsOrString p.predictedSource "Unknown"
    processingTime := p.processingTime
    videoTimeline := some p.frameAnalyses }

/-- `processImageAnalysis(analysisId, filePath)` — call `analyzeImage`; on
success `$set` `{status: 'completed', result, completedAt}`; on any caught
error `$set` `{status: 'failed', error: error.message, completedAt}`.
Returns the updated record together with the breaker state after the call. -/
def processImageAnalysis (r : AnalysisRecord) (cb : CircuitBreakerState)
    (now completedNow : Int) (outcome : CallOutcome ImagePayload) :
    AnalysisRecord × CircuitBreakerState :=
  let g := analyzeImage cb now outcome
  match g.result with
  | .ok payload =>
      (updateAnalysis r
        { status := some .completed, result := some (storedImageResult payload),
          error := none, completedAt := some completedNow }, g.breaker)
  | .error e =>
      (updateAnalysis r
        { status := some .failed, result := none,
          error := some e.message, completedAt := some completedNow }, g.breaker)

/-- `processVideoAnalysis(analysisId, filePath)` — same task boundary as the
image processor, with the video payload mapping. -/
def processVideoAnalysis (r : AnalysisRecord) (cb : CircuitBreakerState)
    (now completedNow : Int) (outcome : CallOutcome VideoPayload) :
    AnalysisRecord × CircuitBreakerState :=
  let g := analyzeVideo cb now outcome
  match g.result with
  | .ok payload =>
      (updateAnalysis r
        { status := some .completed, result := some (storedVideoResult payload),
          error := none, completedAt := some completedNow }, g.breaker)
  | .error e =>
      (updateAnalysis r
        { status := some .failed, result := none,
          error := some e.message, completedAt := some completedNow }, g.breaker)

/-- The fixed, user-safe messages a gateway failure can carry — every message
`mapAIEngineError`, the breaker rejection or the generic catch can produce,
other than a 400 response's pass-through of the subsystem-supplied message. -/
def fixedFailureMessages : List String :=
  [ "AI Engine is temporarily unavailable. Please try again later.",
    "AI analysis timeout. The content may be too large or complex.",
    "AI Engine is unavailable",
    "Invalid content for analysis",
    "Content too large for analysis",
    "AI analysis failed",
    "Failed to communicate with AI Engine",
    "Unexpected error during analysis" ]

end AnalysisProcessor

namespace Aggregator

/-- Modelled from the spec: the Score Aggregator's implementation (the AI
engine's Python aggregation module) is not present in the repository
snapshot, only its documentation; this section follows specification
section 4.4 verbatim.  `modelId` is one of the five detection models. -/
inductive ModelId
  | classifier
  | deepfake
  | ganFingerprint
  | forgery
  | compression
deriving DecidableEq, Repr

/-- Modelled from the spec: one detection model's output,
`score ∈ [0,1]` (higher = more real) and `confidence ∈ [0,1]`. -/
structure PerModelOutput where
  modelId : ModelId
  score : ℚ
  confidence : ℚ
deriving DecidableEq, Repr

/-- Modelled from the spec: the fixed base weights of section 4.4 —
classifier 0.30, deepfake 0.25, ganFingerprint 0.20, forgery 0.15,
compression 0.10 (they sum to 1). -/
def baseWeight : ModelId → ℚ
  | .classifier => 30 / 100
  | .deepfake => 25 / 100
  | .ganFingerprint => 20 / 100
  | .forgery => 15 / 100
  | .compression => 10 / 100

/-- Modelled from the spec: `effectiveWeight_i = baseWeight_i * confidence_i`. -/
def effectiveWeight (o : PerModelOutput) : ℚ :=
  baseWeight o.modelId * o.confidence

/-- Modelled from the spec: `denom = Σ effectiveWeight_i`. -/
def weightedDenom (outs : List PerModelOutput) : ℚ :=
  (outs.map effectiveWeight).sum

/-- Modelled from the spec: `Σ (effectiveWeight_i * score_i)`. -/
def weightedNum (outs : List PerModelOutput) : ℚ :=
  (outs.map fun o => effectiveWeight o * o.score).sum

/-- Modelled from the spec:
`truthScore = denom > 0 ? round(100 * Σ(effectiveWeight_i * score_i) / denom) : 50`. -/
def truthScore (outs : List PerModelOutput) : ℤ :=
  if 0 < weightedDenom outs then
    round (100 * weightedNum outs / weightedDenom outs)
  else
    50

/-- Modelled from the spec: `aiGeneratedProbability = 100 - truthScore`. -/
def aiGeneratedProbability (outs : List PerModelOutput) : ℤ :=
  100 - truthScore outs

/-- The concrete scenario input of specification section 8:
classifier {0.9, 1.0}, deepfake {1.0, 1.0}, ganFingerprint {0.8, 0.5},
forgery {0.95, 1.0}, compression {0.7, 1.0}. -/
def scenarioInputs : List PerModelOutput :=
  [ { modelId := .classifier, score := 9 / 10, confidence := 1 },
    { modelId := .deepfake, score := 1, confidence := 1 },
    { modelId := .ganFingerprint, score := 8 / 10, confidence := 1 / 2 },
    { modelId := .forgery, score := 95 / 100, confidence := 1 },
    { modelId := .compression, score := 7 / 10, confidence := 1 } ]

/-- The same five models with confidence 0 everywhere (total degradation). -/
def zeroConfidenceInputs : List PerModelOutput :=
  [ { modelId := .classifier, score := 9 / 10, confidence := 0 },
    { modelId := .deepfake, score := 1, confidence := 0 },
    { modelId := .ganFingerprint, score := 8 / 10, confidence := 0 },
    { modelId := .forgery, score := 95 / 100, confidence := 0 },
    { modelId := .compression, score := 7 / 10, confidence := 0 } ]

end Aggregator

namespace TimelineReducer

open Aggregator

/-- Modelled from the spec: one timeline entry of the Video Timeline Reducer
(section 4.5) — frame index, the frame's aggregated score, and the
`suspicious = frameScore < 50` flag (fixed threshold). -/
structure TimelineEntry where
  frameIndex : Nat
  frameScore : Int
  suspicious : Bool
deriving DecidableEq, Repr

/-- Modelled from the spec: the timeline built from the per-frame scores, in
frame order, flagging `suspicious` exactly when `frameScore < 50`. -/
def frameTimeline (frameScores : List Int) : List TimelineEntry :=
  frameScores.enum.map fun p : Nat × Int =>
    { frameIndex := p.1, frameScore := p.2, suspicious := decide (p.2 < 50) }

/-- Modelled from the spec: the video-level truth score — the unweighted
arithmetic mean of all frame scores (rounded to an integer, as the data
model requires `truthScore ∈ [0,100]` to be an integer). -/
def videoTruthScore (frameScores : List Int) : ℤ :=
  round ((frameScores.sum : ℚ) / (frameScores.length : ℚ))

/-- Modelled from the spec: the whole reducer — run the Aggregator (4.4) on
each frame's per-model outputs, then build the timeline and the video-level
mean score. -/
def reduceVideo (frames : List (List PerModelOutput)) : List TimelineEntry × ℤ :=
  let scores := frames.map truthScore
  (frameTimeline scores, videoTruthScore scores)

end TimelineReducer

namespace AiEngineClient

/-- Infra-level failure kinds in the sense of the error taxonomy: connection
refused (RemoteUnavailable) and 5xx responses (RemoteInternalError); content
rejections (400/413) and timeouts are not in this class. -/
def isInfraKind : AxiosErrorKind → Bool
  | .ECONNREFUSED => true
  | .response status _ => decide (500 ≤ status)
  | _ => false

/-- Invariant maintained by the breaker: away from `CLOSED`, the failure
counter has already reached the opening threshold. -/
def BreakerInv (cb : CircuitBreakerState) : Prop :=
  cb.state ≠ .CLOSED → CIRCUIT_BREAKER_THRESHOLD ≤ cb.failures

/-- Five consecutive connection-refused failures at times 1000..5000 ms. -/
def fiveFailureEvents : List GEvent :=
  [ .img 1000 (.axiosError .ECONNREFUSED),
    .img 2000 (.axiosError .ECONNREFUSED),
    .img 3000 (.axiosError .ECONNREFUSED),
    .img 4000 (.axiosError .ECONNREFUSED),
    .img 5000 (.axiosError .ECONNREFUSED) ]

/-- A concrete successful image payload, for witnesses. -/
def samplePayload : ImagePayload :=
  { truthScore := 80, aiGeneratedProbability := 20, realProbability := 80,
    deepfakeDetection := "df", manipulationHeatmap := none, metadata := "meta",
    predictedSource := "Unknown", processingTime := 1200 }

/-- A concrete successful video payload, for witnesses. -/
def sampleVideoPayload : VideoPayload :=
  { truthScore := 70, aiGeneratedProbability := some 30,
    deepfakeDetection := "df", metadata := "meta",
    predictedSource := some "Unknown", processingTime := 4000,
    frameAnalyses := ["frame0", "frame1"] }

end AiEngineClient

namespace AnalysisStore

/-- A concrete record-creation parameter set, for witnesses. -/
def sampleCreateParams : CreateAnalysisParams :=
  { userId := none, contentType := .image, sourceType := .upload,
    sourceUrl := none, filePath := "/uploads/sample.jpg", thumbnail := "thumb" }

/-- The record invariant of the data model: `result` present iff the record is
`completed`, `error` present iff it is `failed`. -/
def resultErrorInvariant (r : AnalysisRecord) : Prop :=
  (r.result.isSome = true ↔ r.status = Status.completed) ∧
  (r.error.isSome = true ↔ r.status = Status.failed)

end AnalysisStore

open AiEngineClient AnalysisStore AnalysisProcessor Aggregator TimelineReducer

/-! Shared helper lemmas. -/

/-- Rounding a rational equals `n` once `n ≤ q + 1/2 < n + 1`. -/
lemma round_eq_of_bounds (q : ℚ) (n : ℤ) (h1 : (n : ℚ) ≤ q + 1 / 2)
    (h2 : q + 1 / 2 < n + 1) : round q = n := by
  rw [round_eq]
  exact Int.floor_eq_iff.mpr ⟨h1, h2⟩

/-- A list of zeros sums to zero. -/
lemma list_sum_eq_zero (l : List ℚ) (h : ∀ x ∈ l, x = 0) : l.sum = 0 := by
  induction l with
  | nil => simp
  | cons a t ih =>
      simp [h a (List.mem_cons_self a t), ih fun x hx => h x (List.mem_cons_of_mem a hx)]

/-- Every base weight is positive. -/
lemma baseWeight_pos (m : ModelId) : 0 < baseWeight m := by
  cases m <;> norm_num [baseWeight]

/-- The spec scenario's effective-weight denominator. -/
lemma weightedDenom_scenario : weightedDenom scenarioInputs = 9 / 10 := by
  norm_num [weightedDenom, scenarioInputs, effectiveWeight, baseWeight]

/-- The spec scenario's weighted score numerator. -/
lemma weightedNum_scenario : weightedNum scenarioInputs = 13 / 16 := by
  norm_num [weightedNum, scenarioInputs, effectiveWeight, baseWeight]

/-- The exact weighted computation on the spec scenario input yields 90:
`100 * (13/16) / (9/10) = 90.2777…`, which rounds to 90. -/
lemma truthScore_scenario : truthScore scenarioInputs = 90 := by
  rw [truthScore, if_pos (by rw [weightedDenom_scenario]; norm_num),
    weightedDenom_scenario, weightedNum_scenario]
  exact round_eq_of_bounds _ _ (by norm_num) (by norm_num)

/-- C3: the claimed value 89 is not what the spec's own formula computes. -/
theorem C3_scenario_counterexample : truthScore scenarioInputs ≠ 89 := by
  rw [truthScore_scenario]
  decide

/-- C3 (amended): for the Aggregator input classifier {0.9, 1.0},
deepfake {1.0, 1.0}, ganFingerprint {0.8, 0.5}, forgery {0.95, 1.0},
compression {0.7, 1.0}, the weighted computation with the base weights
0.30 / 0.25 / 0.20 / 0.15 / 0.10 yields `truthScore = 90`. -/
theorem C3_scenario_truthScore : truthScore scenarioInputs = 90 :=
  truthScore_scenario

/-- C7: for every list of per-model outputs with scores and confidences in
[0,1], the Aggregator's truth score is an integer in [0,100], and when every
confidence is 0 it is exactly the neutral value 50. -/
theorem C7_truthScore_range (outs : List PerModelOutput)
    (h : ∀ o ∈ outs, 0 ≤ o.score ∧ o.score ≤ 1 ∧ 0 ≤ o.confidence ∧ o.confidence ≤ 1) :
    0 ≤ truthScore outs ∧ truthScore outs ≤ 100 ∧
      ((∀ o ∈ outs, o.confidence = 0) → truthScore outs = 50) := by
  have hew : ∀ o ∈ outs, 0 ≤ effectiveWeight o := fun o ho =>
    mul_nonneg (baseWeight_pos o.modelId).le (h o ho).2.2.1
  have hnum0 : 0 ≤ weightedNum outs := by
    apply List.sum_nonneg
    intro x hx
    rcases List.mem_map.mp hx with ⟨o, ho, rfl⟩
    exact mul_nonneg (hew o ho) (h o ho).1
  have hnumle : weightedNum outs ≤ weightedDenom outs := by
    apply List.sum_le_sum
    intro o ho
    calc effectiveWeight o * o.score
        ≤ effectiveWeight o * 1 := mul_le_mul_of_nonneg_left (h o ho).2.1 (hew o ho)
      _ = effectiveWeight o := mul_one _
  have hrange : 0 ≤ truthScore outs ∧ truthScore outs ≤ 100 := by
    by_cases hd : 0 < weightedDenom outs
    · rw [truthScore, if_pos hd]
      have hq0 : 0 ≤ 100 * weightedNum outs / weightedDenom outs :=
        div_nonneg (by linarith) hd.le
      have hq100 : 100 * weightedNum outs / weightedDenom outs ≤ 100 := by
        rw [div_le_iff₀ hd]
        linarith
      rw [round_eq]
      constructor
      · apply Int.le_floor.mpr
        push_cast
        linarith
      · have hlt : ⌊100 * weightedNum outs / weightedDenom outs + 1 / 2⌋ < 101 := by
          apply Int.floor_lt.mpr
          push_cast
          linarith
        omega
    · rw [truthScore, if_neg hd]
      norm_num
  refine ⟨hrange.1, hrange.2, ?_⟩
  intro hconf
  have hdz : weightedDenom outs = 0 := by
    apply list_sum_eq_zero
    intro x hx
    rcases List.mem_map.mp hx with ⟨o, ho, rfl⟩
    rw [effectiveWeight, hconf o ho, mul_zero]
  rw [truthScore, if_neg (by rw [hdz]; norm_num)]

/-- C7 witness: the range theorem applied to the concrete scenario input, and
the neutral-value clause applied to the all-zero-confidence input. -/
theorem C7_truthScore_range_witness :
    (0 ≤ truthScore scenarioInputs ∧ truthScore scenarioInputs ≤ 100) ∧
      truthScore zeroConfidenceInputs = 50 :=
  ⟨⟨(C7_truthScore_range scenarioInputs
        (by intro o ho; fin_cases ho <;> norm_num [scenarioInputs])).1,
    (C7_truthScore_range scenarioInputs
        (by intro o ho; fin_cases ho <;> norm_num [scenarioInputs])).2.1⟩,
    (C7_truthScore_range zeroConfidenceInputs
        (by intro o ho; fin_cases ho <;> norm_num [zeroConfidenceInputs])).2.2
      (by intro o ho; fin_cases ho <;> rfl)⟩

/-- C8: the Video Timeline Reducer flags a frame suspicious exactly when its
frame score is below 50, and on the 3-frame scenario [80, 40, 90] produces a
3-entry timeline with only frame index 1 suspicious and video-level truth
score 70 (the unweighted arithmetic mean). -/
theorem C8_timeline_scenario :
    (frameTimeline [80, 40, 90] =
        [{ frameIndex := 0, frameScore := 80, suspicious := false },
         { frameIndex := 1, frameScore := 40, suspicious := true },
         { frameIndex := 2, frameScore := 90, suspicious := false }] ∧
      (frameTimeline [80, 40, 90]).length = 3 ∧
      videoTruthScore [80, 40, 90] = 70) ∧
    ∀ scores : List Int, ∀ e ∈ frameTimeline scores,
      (e.suspicious = true ↔ e.frameScore < 50) := by
  refine ⟨⟨by decide, by decide, ?_⟩, ?_⟩
  · rw [videoTruthScore,
      show ((([80, 40, 90] : List Int).sum : ℚ) / (([80, 40, 90] : List Int).length : ℚ))
          = 70 by norm_num]
    exact round_eq_of_bounds _ _ (by norm_num) (by norm_num)
  · intro scores e he
    rcases List.mem_map.mp he with ⟨p, hp, rfl⟩
    simp

/-- C8 witness: the suspicious-threshold equivalence applied to the middle
entry of the scenario timeline. -/
theorem C8_timeline_scenario_witness :
    ((({ frameIndex := 1, frameScore := 40, suspicious := true } : TimelineEntry).suspicious
        = true) ↔
      ({ frameIndex := 1, frameScore := 40, suspicious := true } : TimelineEntry).frameScore
        < 50) :=
  C8_timeline_scenario.2 [80, 40, 90]
    { frameIndex := 1, frameScore := 40, suspicious := true } (by decide)

/-- `recordFailure` always increments the failure counter by one. -/
lemma recordFailure_failures (cb : CircuitBreakerState) (now : Int) :
    (recordFailure cb now).failures = cb.failures + 1 := by
  simp only [recordFailure]
  split <;> rfl

/-- `recordFailure` always stamps the failure time with the current time. -/
lemma recordFailure_last (cb : CircuitBreakerState) (now : Int) :
    (recordFailure cb now).lastFailureTime = now := by
  simp only [recordFailure]
  split <;> rfl

/-- `recordFailure` on an already-open breaker keeps it open. -/
lemma recordFailure_open (f : Nat) (t now : Int) :
    recordFailure ⟨f, t, .OPEN⟩ now = ⟨f + 1, now, .OPEN⟩ := by
  simp only [recordFailure]
  split <;> rfl

/-- `recordSuccess` either resets the failure counter or leaves it unchanged. -/
lemma recordSuccess_failures (cb : CircuitBreakerState) (now : Int) :
    (recordSuccess cb now).failures = 0 ∨ (recordSuccess cb now).failures = cb.failures := by
  obtain ⟨f, t, s⟩ := cb
  cases s
  · unfold recordSuccess
    dsimp only
    split
    · exact Or.inl rfl
    · exact Or.inr rfl
  · exact Or.inr rfl
  · exact Or.inl rfl

/-- A passing breaker check never changes the counter or the failure time. -/
lemma checkCircuitBreaker_ok_fields (cb : CircuitBreakerState) (now : Int)
    (cb1 : CircuitBreakerState) (h : checkCircuitBreaker cb now = .ok cb1) :
    cb1.failures = cb.failures ∧ cb1.lastFailureTime = cb.lastFailureTime := by
  obtain ⟨f, t, s⟩ := cb
  cases s <;> simp only [checkCircuitBreaker] at h
  · injection h with h1
    subst h1
    exact ⟨rfl, rfl⟩
  · split at h
    · injection h with h1
      subst h1
      exact ⟨rfl, rfl⟩
    · cases h
  · injection h with h1
    subst h1
    exact ⟨rfl, rfl⟩

/-- A failing breaker check can only produce the 503 rejection error. -/
lemma checkCircuitBreaker_error_fields (cb : CircuitBreakerState) (now : Int)
    (e : CustomError) (h : checkCircuitBreaker cb now = .error e) :
    e = { message := "AI Engine is temporarily unavailable. Please try again later.",
          statusCode := 503, code := "AI_ENGINE_UNAVAILABLE" } := by
  obtain ⟨f, t, s⟩ := cb
  cases s <;> simp only [checkCircuitBreaker] at h
  · cases h
  · split at h
    · cases h
    · injection h with h1
      exact h1.symm
  · cases h

/-- When the breaker check throws, the gateway records a failure on the
unchanged state, rethrows the rejection, and never contacts the subsystem. -/
lemma gatewayCall_rejected {α : Type} (cb : CircuitBreakerState) (now : Int)
    (o : CallOutcome α) (e : CustomError) (h : checkCircuitBreaker cb now = .error e) :
    gatewayCall cb now o =
      { breaker := recordFailure cb now, result := .error e, contacted := false } := by
  unfold gatewayCall
  rw [h]

/-- `recordFailure` preserves the breaker invariant. -/
lemma breakerInv_recordFailure (cb : CircuitBreakerState) (now : Int)
    (h : BreakerInv cb) : BreakerInv (recordFailure cb now) := by
  obtain ⟨f, t, s⟩ := cb
  unfold BreakerInv recordFailure CIRCUIT_BREAKER_THRESHOLD at *
  dsimp only at *
  split
  · intro _
    dsimp only at *
    omega
  · intro hne
    dsimp only at *
    have h5 := h hne
    omega

/-- `recordSuccess` preserves the breaker invariant. -/
lemma breakerInv_recordSuccess (cb : CircuitBreakerState) (now : Int)
    (h : BreakerInv cb) : BreakerInv (recordSuccess cb now) := by
  obtain ⟨f, t, s⟩ := cb
  cases s
  · unfold BreakerInv recordSuccess at *
    dsimp only at *
    split
    · intro hne
      exact absurd rfl hne
    · intro hne
      exact absurd rfl hne
  · exact h
  · unfold BreakerInv recordSuccess
    intro hne
    exact absurd rfl hne

/-- A passing breaker check preserves the breaker invariant. -/
lemma breakerInv_check (cb : CircuitBreakerState) (now : Int)
    (cb1 : CircuitBreakerState) (hok : checkCircuitBreaker cb now = .ok cb1)
    (h : BreakerInv cb) : BreakerInv cb1 := by
  obtain ⟨f, t, s⟩ := cb
  cases s <;> simp only [checkCircuitBreaker] at hok
  · injection hok with h1
    subst h1
    exact h
  · split at hok
    · injection hok with h1
      subst h1
      intro _
      exact h (by intro hc; cases hc)
    · cases hok
  · injection hok with h1
    subst h1
    exact h

/-- One gateway call preserves the breaker invariant. -/
lemma breakerInv_gatewayCall {α : Type} (cb : CircuitBreakerState) (now : Int)
    (o : CallOutcome α) (h : BreakerInv cb) : BreakerInv (gatewayCall cb now o).breaker := by
  cases hc : checkCircuitBreaker cb now with
  | error e =>
      rw [gatewayCall_rejected cb now o e hc]
      exact breakerInv_recordFailure cb now h
  | ok cb1 =>
      have h1 : BreakerInv cb1 := breakerInv_check cb now cb1 hc h
      unfold gatewayCall
      rw [hc]
      cases o
      · exact breakerInv_recordSuccess cb1 now h1
      · exact breakerInv_recordFailure cb1 now h1
      · exact breakerInv_recordFailure cb1 now h1

/-- The breaker invariant holds after any sequence of gateway calls. -/
lemma breakerInv_runEvents (evs : List GEvent) : BreakerInv (runEvents evs) := by
  have aux : ∀ l : List GEvent, ∀ cb : CircuitBreakerState,
      BreakerInv cb → BreakerInv (List.foldl stepEvent cb l) := by
    intro l
    induction l with
    | nil => intro cb h; exact h
    | cons ev tl ih =>
        intro cb h
        apply ih
        cases ev with
        | img now o => exact breakerInv_gatewayCall cb now o h
        | vid now o => exact breakerInv_gatewayCall cb now o h
  exact aux _ initialBreaker (by intro hne; exact absurd rfl hne)

/-- Any reachable open breaker has at least threshold-many recorded failures. -/
lemma reachable_open_failures (cb : CircuitBreakerState) (h : Reachable cb)
    (hopen : cb.state = .OPEN) : CIRCUIT_BREAKER_THRESHOLD ≤ cb.failures := by
  obtain ⟨evs, rfl⟩ := h
  exact breakerInv_runEvents evs (by rw [hopen]; intro hc; cases hc)

/-- Every gateway call that produces an error increments the failure counter
and stamps the failure time. -/
lemma gatewayCall_error_increments {α : Type} (cb : CircuitBreakerState) (now : Int)
    (o : CallOutcome α) (e : CustomError) (h : (gatewayCall cb now o).result = .error e) :
    (gatewayCall cb now o).breaker.failures = cb.failures + 1 ∧
    (gatewayCall cb now o).breaker.lastFailureTime = now := by
  cases hc : checkCircuitBreaker cb now with
  | error e2 =>
      rw [gatewayCall_rejected cb now o e2 hc]
      exact ⟨recordFailure_failures cb now, recordFailure_last cb now⟩
  | ok cb1 =>
      obtain ⟨hf, _⟩ := checkCircuitBreaker_ok_fields cb now cb1 hc
      unfold gatewayCall at h ⊢
      rw [hc] at h ⊢
      cases o
      · dsimp only at h
        cases h
      · dsimp only
        rw [recordFailure_failures, recordFailure_last, hf]
        exact ⟨rfl, rfl⟩
      · dsimp only
        rw [recordFailure_failures, recordFailure_last, hf]
        exact ⟨rfl, rfl⟩

/-- Every gateway call that returns a payload leaves the failure counter
unchanged or resets it to zero. -/
lemma gatewayCall_ok_failures {α : Type} (cb : CircuitBreakerState) (now : Int)
    (o : CallOutcome α) (d : α) (h : (gatewayCall cb now o).result = .ok d) :
    (gatewayCall cb now o).breaker.failures = 0 ∨
    (gatewayCall cb now o).breaker.failures = cb.failures := by
  cases hc : checkCircuitBreaker cb now with
  | error e2 =>
      rw [gatewayCall_rejected cb now o e2 hc] at h
      cases h
  | ok cb1 =>
      obtain ⟨hf, _⟩ := checkCircuitBreaker_ok_fields cb now cb1 hc
      unfold gatewayCall at h ⊢
      rw [hc] at h ⊢
      cases o
      · dsimp only
        rw [← hf]
        exact recordSuccess_failures cb1 now
      · dsimp only at h
        cases h
      · dsimp only at h
        cases h

/-- C1 counterexample: a content-level rejection — an HTTP 400
`INVALID_CONTENT` response — does increment the breaker's failure counter. -/
theorem C1_content_rejection_counterexample :
    (analyzeImage initialBreaker 1000
        (.axiosError (.response 400 (some "Invalid image content")))).result =
      .error { message := "Invalid image content", statusCode := 400,
               code := "INVALID_CONTENT" } ∧
    (analyzeImage initialBreaker 1000
        (.axiosError (.response 400 (some "Invalid image content")))).breaker.failures =
      initialBreaker.failures + 1 := by
  decide

/-- C1 (amended): every failing call to `analyzeImage` or `analyzeVideo` —
infra-level, content-level, or a fail-fast breaker rejection alike —
increments the breaker's failure counter and stamps `lastFailureTime`;
only a successful call leaves the counter unchanged (or resets it). -/
theorem C1_every_failure_increments (cb : CircuitBreakerState) (now : Int)
    (oi : CallOutcome ImagePayload) (ov : CallOutcome VideoPayload) :
    (∀ e : CustomError, (analyzeImage cb now oi).result = .error e →
        (analyzeImage cb now oi).breaker.failures = cb.failures + 1 ∧
        (analyzeImage cb now oi).breaker.lastFailureTime = now) ∧
    (∀ d : ImagePayload, (analyzeImage cb now oi).result = .ok d →
        (analyzeImage cb now oi).breaker.failures = 0 ∨
        (analyzeImage cb now oi).breaker.failures = cb.failures) ∧
    (∀ e : CustomError, (analyzeVideo cb now ov).result = .error e →
        (analyzeVideo cb now ov).breaker.failures = cb.failures + 1 ∧
        (analyzeVideo cb now ov).breaker.lastFailureTime = now) ∧
    (∀ d : VideoPayload, (analyzeVideo cb now ov).result = .ok d →
        (analyzeVideo cb now ov).breaker.failures = 0 ∨
        (analyzeVideo cb now ov).breaker.failures = cb.failures) :=
  ⟨fun e h => gatewayCall_error_increments cb now oi e h,
   fun d h => gatewayCall_ok_failures cb now oi d h,
   fun e h => gatewayCall_error_increments cb now ov e h,
   fun d h => gatewayCall_ok_failures cb now ov d h⟩

/-- C1 witness: the amended theorem applied to a concrete 400 content
rejection arriving at a fresh breaker. -/
theorem C1_every_failure_increments_witness :
    (analyzeImage initialBreaker 1000
        (.axiosError (.response 400 (some "Invalid image content")))).breaker.failures =
      initialBreaker.failures + 1 ∧
    (analyzeImage initialBreaker 1000
        (.axiosError (.response 400 (some "Invalid image content")))).breaker.lastFailureTime =
      1000 :=
  (C1_every_failure_increments initialBreaker 1000
      (.axiosError (.response 400 (some "Invalid image content")))
      (.success sampleVideoPayload)).1
    { message := "Invalid image content", statusCode := 400, code := "INVALID_CONTENT" }
    (by decide)

/-- C5: five consecutive infra-level failures (connection refused / 5xx) from
a fresh breaker open the circuit with exactly 5 recorded failures, and a 6th
call inside the cool-down window is rejected immediately with the 503
`AI_ENGINE_UNAVAILABLE` error, without the subsystem being contacted —
whatever that 6th call would have returned. -/
theorem C5_breaker_opens_after_five_infra_failures
    (e1 e2 e3 e4 e5 : AxiosErrorKind)
    (_h1 : isInfraKind e1 = true) (_h2 : isInfraKind e2 = true)
    (_h3 : isInfraKind e3 = true) (_h4 : isInfraKind e4 = true)
    (_h5 : isInfraKind e5 = true)
    (t1 t2 t3 t4 t5 t6 : Int) (hwin : t6 - t5 ≤ CIRCUIT_BREAKER_TIMEOUT)
    (o : CallOutcome ImagePayload) :
    runEvents
        [ .img t1 (.axiosError e1), .img t2 (.axiosError e2), .img t3 (.axiosError e3),
          .img t4 (.axiosError e4), .img t5 (.axiosError e5) ] =
      { failures := 5, lastFailureTime := t5, state := .OPEN } ∧
    (analyzeImage { failures := 5, lastFailureTime := t5, state := .OPEN } t6 o).contacted =
      false ∧
    (analyzeImage { failures := 5, lastFailureTime := t5, state := .OPEN } t6 o).result =
      .error { message := "AI Engine is temporarily unavailable. Please try again later.",
               statusCode := 503, code := "AI_ENGINE_UNAVAILABLE" } := by
  have hc : checkCircuitBreaker { failures := 5, lastFailureTime := t5, state := .OPEN } t6 =
      .error { message := "AI Engine is temporarily unavailable. Please try again later.",
               statusCode := 503, code := "AI_ENGINE_UNAVAILABLE" } := by
    unfold checkCircuitBreaker
    dsimp only
    rw [if_neg (by unfold CIRCUIT_BREAKER_TIMEOUT at hwin ⊢; omega)]
  refine ⟨rfl, ?_, ?_⟩
  · rw [show analyzeImage { failures := 5, lastFailureTime := t5, state := .OPEN } t6 o
        = gatewayCall { failures := 5, lastFailureTime := t5, state := .OPEN } t6 o from rfl,
      gatewayCall_rejected _ _ _ _ hc]
  · rw [show analyzeImage { failures := 5, lastFailureTime := t5, state := .OPEN } t6 o
        = gatewayCall { failures := 5, lastFailureTime := t5, state := .OPEN } t6 o from rfl,
      gatewayCall_rejected _ _ _ _ hc]

/-- C5 witness: five connection-refused failures at 1000..5000 ms, then a
would-be-successful 6th call at 5500 ms that is rejected unseen. -/
theorem C5_breaker_opens_witness :
    runEvents fiveFailureEvents = { failures := 5, lastFailureTime := 5000, state := .OPEN } ∧
    (analyzeImage { failures := 5, lastFailureTime := 5000, state := .OPEN } 5500
        (.success samplePayload)).contacted = false ∧
    (analyzeImage { failures := 5, lastFailureTime := 5000, state := .OPEN } 5500
        (.success samplePayload)).result =
      .error { message := "AI Engine is temporarily unavailable. Please try again later.",
               statusCode := 503, code := "AI_ENGINE_UNAVAILABLE" } :=
  C5_breaker_opens_after_five_infra_failures .ECONNREFUSED .ECONNREFUSED .ECONNREFUSED
    .ECONNREFUSED .ECONNREFUSED rfl rfl rfl rfl rfl 1000 2000 3000 4000 5000 5500
    (by decide) (.success samplePayload)

/-- C6: once the cool-down has elapsed on a reachable open breaker, the next
call's breaker check transitions to `HALF_OPEN`; if the trial call succeeds
the breaker closes with the counter reset to 0, and if it fails the breaker
is open again with `lastFailureAt` restamped to the time of the trial. -/
theorem C6_open_cooldown_transitions (cb : CircuitBreakerState) (now : Int)
    (hreach : Reachable cb) (hopen : cb.state = .OPEN)
    (helapsed : CIRCUIT_BREAKER_TIMEOUT < now - cb.lastFailureTime) :
    checkCircuitBreaker cb now = .ok { cb with state := .HALF_OPEN } ∧
    (∀ d : ImagePayload, (analyzeImage cb now (.success d)).breaker =
        { failures := 0, lastFailureTime := cb.lastFailureTime, state := .CLOSED }) ∧
    (∀ e : AxiosErrorKind, (analyzeImage cb now (.axiosError e)).breaker =
        { failures := cb.failures + 1, lastFailureTime := now, state := .OPEN }) := by
  have hth : CIRCUIT_BREAKER_THRESHOLD ≤ cb.failures :=
    reachable_open_failures cb hreach hopen
  obtain ⟨f, t, s⟩ := cb
  dsimp only at hopen helapsed hth ⊢
  subst hopen
  have hc : checkCircuitBreaker ⟨f, t, .OPEN⟩ now = .ok ⟨f, t, .HALF_OPEN⟩ := by
    unfold checkCircuitBreaker
    dsimp only
    rw [if_pos helapsed]
  refine ⟨hc, ?_, ?_⟩
  · intro d
    show (gatewayCall ⟨f, t, .OPEN⟩ now (.success d)).breaker = _
    unfold gatewayCall
    rw [hc]
    rfl
  · intro e
    show (gatewayCall ⟨f, t, .OPEN⟩ now (.axiosError e)).breaker = _
    unfold gatewayCall
    rw [hc]
    show recordFailure ⟨f, t, .HALF_OPEN⟩ now = _
    unfold recordFailure
    rw [if_pos (show f + 1 ≥ CIRCUIT_BREAKER_THRESHOLD by
      unfold CIRCUIT_BREAKER_THRESHOLD at hth ⊢; omega)]

/-- C6 witness: the open breaker reached by five failures, probed at 70000 ms
(cool-down elapsed): check transitions to half-open, a successful trial
closes the breaker with counter 0, a failed trial re-opens it at 70000. -/
theorem C6_open_cooldown_transitions_witness :
    checkCircuitBreaker { failures := 5, lastFailureTime := 5000, state := .OPEN } 70000 =
      .ok { failures := 5, lastFailureTime := 5000, state := .HALF_OPEN } ∧
    (analyzeImage { failures := 5, lastFailureTime := 5000, state := .OPEN } 70000
        (.success samplePayload)).breaker =
      { failures := 0, lastFailureTime := 5000, state := .CLOSED } ∧
    (analyzeImage { failures := 5, lastFailureTime := 5000, state := .OPEN } 70000
        (.axiosError .ECONNREFUSED)).breaker =
      { failures := 6, lastFailureTime := 70000, state := .OPEN } := by
  have h := C6_open_cooldown_transitions
    { failures := 5, lastFailureTime := 5000, state := .OPEN } 70000
    ⟨fiveFailureEvents, by decide⟩ rfl (by decide)
  exact ⟨h.1, h.2.1 samplePayload, h.2.2 .ECONNREFUSED⟩

/-- C10: a call made while the breaker is open and the cool-down has not yet
elapsed is rejected without contacting the subsystem, yet still increments
the failure counter and restamps `lastFailureTime` with the rejection time,
keeping the breaker open — the fail-fast rejection does mutate the breaker. -/
theorem C10_failfast_rejection_updates_breaker (cb : CircuitBreakerState) (now : Int)
    (oi : CallOutcome ImagePayload) (ov : CallOutcome VideoPayload)
    (hopen : cb.state = .OPEN)
    (hwin : now - cb.lastFailureTime ≤ CIRCUIT_BREAKER_TIMEOUT) :
    (analyzeImage cb now oi).contacted = false ∧
    (analyzeImage cb now oi).breaker =
      { failures := cb.failures + 1, lastFailureTime := now, state := .OPEN } ∧
    (analyzeImage cb now oi).result =
      .error { message := "AI Engine is temporarily unavailable. Please try again later.",
               statusCode := 503, code := "AI_ENGINE_UNAVAILABLE" } ∧
    (analyzeVideo cb now ov).contacted = false ∧
    (analyzeVideo cb now ov).breaker =
      { failures := cb.failures + 1, lastFailureTime := now, state := .OPEN } := by
  obtain ⟨f, t, s⟩ := cb
  dsimp only at hopen hwin ⊢
  subst hopen
  have hc : checkCircuitBreaker ⟨f, t, .OPEN⟩ now =
      .error { message := "AI Engine is temporarily unavailable. Please try again later.",
               statusCode := 503, code := "AI_ENGINE_UNAVAILABLE" } := by
    unfold checkCircuitBreaker
    dsimp only
    rw [if_neg (by unfold CIRCUIT_BREAKER_TIMEOUT at hwin ⊢; omega)]
  have himg : analyzeImage ⟨f, t, .OPEN⟩ now oi =
      { breaker := recordFailure ⟨f, t, .OPEN⟩ now,
        result := .error { message := "AI Engine is temporarily unavailable. Please try again later.",
                           statusCode := 503, code := "AI_ENGINE_UNAVAILABLE" },
        contacted := false } :=
    gatewayCall_rejected _ _ _ _ hc
  have hvid : analyzeVideo ⟨f, t, .OPEN⟩ now ov =
      { breaker := recordFailure ⟨f, t, .OPEN⟩ now,
        result := .error { message := "AI Engine is temporarily unavailable. Please try again later.",
                           statusCode := 503, code := "AI_ENGINE_UNAVAILABLE" },
        contacted := false } :=
    gatewayCall_rejected _ _ _ _ hc
  rw [himg, hvid, recordFailure_open]
  exact ⟨rfl, rfl, rfl, rfl, rfl⟩

/-- C10 witness: a rejected call at 30000 ms on an open breaker last failed at
1000 ms bumps the counter from 5 to 6 and restamps the failure time. -/
theorem C10_failfast_rejection_witness :
    (analyzeImage { failures := 5, lastFailureTime := 1000, state := .OPEN } 30000
        (.success samplePayload)).contacted = false ∧
    (analyzeImage { failures := 5, lastFailureTime := 1000, state := .OPEN } 30000
        (.success samplePayload)).breaker =
      { failures := 6, lastFailureTime := 30000, state := .OPEN } :=
  have h := C10_failfast_rejection_updates_breaker
    { failures := 5, lastFailureTime := 1000, state := .OPEN } 30000
    (.success samplePayload) (.success sampleVideoPayload) rfl (by decide)
  ⟨h.1, h.2.1⟩

/-- Every error a gateway call can produce carries one of the fixed user-safe
messages, except a 400 response whose subsystem-supplied `data.message` is
passed through verbatim. -/
lemma gatewayCall_error_message {α : Type} (cb : CircuitBreakerState) (now : Int)
    (o : CallOutcome α) (e : CustomError) (h : (gatewayCall cb now o).result = .error e) :
    e.message ∈ fixedFailureMessages ∨
      ∃ m, o = CallOutcome.axiosError (.response 400 (some m)) ∧ e.message = m := by
  cases hc : checkCircuitBreaker cb now with
  | error e2 =>
      rw [gatewayCall_rejected cb now o e2 hc] at h
      injection h with h1
      subst h1
      rw [checkCircuitBreaker_error_fields cb now e2 hc]
      left
      simp [fixedFailureMessages]
  | ok cb1 =>
      unfold gatewayCall at h
      rw [hc] at h
      cases o with
      | success d =>
          dsimp only at h
          simp at h
      | nonAxiosError =>
          dsimp only at h
          injection h with h1
          subst h1
          left
          simp [fixedFailureMessages]
      | axiosError k =>
          dsimp only at h
          injection h with h1
          subst h1
          cases k with
          | ECONNABORTED => left; simp [mapAIEngineError, fixedFailureMessages]
          | ETIMEDOUT => left; simp [mapAIEngineError, fixedFailureMessages]
          | ECONNREFUSED => left; simp [mapAIEngineError, fixedFailureMessages]
          | other msg => left; simp [mapAIEngineError, fixedFailureMessages]
          | response status dm =>
              simp only [mapAIEngineError]
              by_cases h400 : status = 400
              · subst h400
                rw [if_pos rfl]
                cases dm with
                | none => left; simp [jsOrString, fixedFailureMessages]
                | some m =>
                    by_cases hempty : m = ""
                    · subst hempty
                      left
                      simp [jsOrString, fixedFailureMessages]
                    · right
                      exact ⟨m, rfl, by simp [jsOrString, hempty]⟩
              · rw [if_neg h400]
                by_cases h413 : status = 413
                · subst h413
                  rw [if_pos rfl]
                  left
                  simp [fixedFailureMessages]
                · rw [if_neg h413]
                  by_cases h500 : status = 500
                  · subst h500
                    rw [if_pos rfl]
                    left
                    simp [fixedFailureMessages]
                  · rw [if_neg h500]
                    left
                    simp [fixedFailureMessages]

/-- On a failed image call, the processor writes exactly
`{status: failed, error: message, completedAt}`. -/
lemma processImageAnalysis_error (r : AnalysisRecord) (cb : CircuitBreakerState)
    (now completedNow : Int) (oi : CallOutcome ImagePayload) (e : CustomError)
    (h : (analyzeImage cb now oi).result = .error e) :
    (processImageAnalysis r cb now completedNow oi).1 =
      { r with status := .failed, error := some e.message,
               completedAt := some completedNow } := by
  simp only [processImageAnalysis]
  rw [h]
  unfold updateAnalysis
  dsimp only [Option.getD]

/-- On a successful image call, the processor writes exactly
`{status: completed, result, completedAt}`. -/
lemma processImageAnalysis_ok (r : AnalysisRecord) (cb : CircuitBreakerState)
    (now completedNow : Int) (oi : CallOutcome ImagePayload) (d : ImagePayload)
    (h : (analyzeImage cb now oi).result = .ok d) :
    (processImageAnalysis r cb now completedNow oi).1 =
      { r with status := .completed, result := some (storedImageResult d),
               completedAt := some completedNow } := by
  simp only [processImageAnalysis]
  rw [h]
  unfold updateAnalysis
  dsimp only [Option.getD]

/-- On a failed video call, the processor writes exactly
`{status: failed, error: message, completedAt}`. -/
lemma processVideoAnalysis_error (r : AnalysisRecord) (cb : CircuitBreakerState)
    (now completedNow : Int) (ov : CallOutcome VideoPayload) (e : CustomError)
    (h : (analyzeVideo cb now ov).result = .error e) :
    (processVideoAnalysis r cb now completedNow ov).1 =
      { r with status := .failed, error := some e.message,
               completedAt := some completedNow } := by
  simp only [processVideoAnalysis]
  rw [h]
  unfold updateAnalysis
  dsimp only [Option.getD]

/-- On a successful video call, the processor writes exactly
`{status: completed, result, completedAt}`. -/
lemma processVideoAnalysis_ok (r : AnalysisRecord) (cb : CircuitBreakerState)
    (now completedNow : Int) (ov : CallOutcome VideoPayload) (d : VideoPayload)
    (h : (analyzeVideo cb now ov).result = .ok d) :
    (processVideoAnalysis r cb now completedNow ov).1 =
      { r with status := .completed, result := some (storedVideoResult d),
               completedAt := some completedNow } := by
  simp only [processVideoAnalysis]
  rw [h]
  unfold updateAnalysis
  dsimp only [Option.getD]

/-- C2 counterexample: a 400 response whose payload carries internal
exception text is persisted verbatim in the Submission's `error` field. -/
theorem C2_raw_payload_persisted_counterexample :
    (processImageAnalysis (createAnalysis sampleCreateParams 0) initialBreaker 1000 2000
        (.axiosError (.response 400
          (some "Traceback (most recent call last): model.py line 42")))).1.status =
      Status.failed ∧
    (processImageAnalysis (createAnalysis sampleCreateParams 0) initialBreaker 1000 2000
        (.axiosError (.response 400
          (some "Traceback (most recent call last): model.py line 42")))).1.error =
      some "Traceback (most recent call last): model.py line 42" := by
  decide

/-- C2 (amended): every failure reaching the task boundary persists the
Submission as `failed` with the thrown error's message and no result; the
message is one of the fixed user-safe strings for every failure class except
an HTTP 400 content rejection, whose subsystem-supplied payload message is
persisted verbatim. -/
theorem C2_failures_persist_failed (p : CreateAnalysisParams) (createdAt : Int)
    (cb cb2 : CircuitBreakerState) (now completedNow now2 completedNow2 : Int)
    (oi : CallOutcome ImagePayload) (ov : CallOutcome VideoPayload)
    (ei ev : CustomError)
    (hi : (analyzeImage cb now oi).result = .error ei)
    (hv : (analyzeVideo cb2 now2 ov).result = .error ev) :
    ((processImageAnalysis (createAnalysis p createdAt) cb now completedNow oi).1.status =
        Status.failed ∧
      (processImageAnalysis (createAnalysis p createdAt) cb now completedNow oi).1.error =
        some ei.message ∧
      (processImageAnalysis (createAnalysis p createdAt) cb now completedNow oi).1.result =
        none ∧
      (ei.message ∈ fixedFailureMessages ∨
        ∃ m, oi = CallOutcome.axiosError (.response 400 (some m)) ∧ ei.message = m)) ∧
    ((processVideoAnalysis (createAnalysis p createdAt) cb2 now2 completedNow2 ov).1.status =
        Status.failed ∧
      (processVideoAnalysis (createAnalysis p createdAt) cb2 now2 completedNow2 ov).1.error =
        some ev.message ∧
      (processVideoAnalysis (createAnalysis p createdAt) cb2 now2 completedNow2 ov).1.result =
        none ∧
      (ev.message ∈ fixedFailureMessages ∨
        ∃ m, ov = CallOutcome.axiosError (.response 400 (some m)) ∧ ev.message = m)) := by
  rw [processImageAnalysis_error (createAnalysis p createdAt) cb now completedNow oi ei hi,
    processVideoAnalysis_error (createAnalysis p createdAt) cb2 now2 completedNow2 ov ev hv]
  refine ⟨⟨rfl, rfl, rfl, ?_⟩, ⟨rfl, rfl, rfl, ?_⟩⟩
  · exact gatewayCall_error_message cb now oi ei hi
  · exact gatewayCall_error_message cb2 now2 ov ev hv

/-- C2 witness: a timeout on the image side and a connection refusal on the
video side, both persisted as `failed` with their fixed user-safe messages. -/
theorem C2_failures_persist_failed_witness :
    ((processImageAnalysis (createAnalysis sampleCreateParams 0) initialBreaker 1000 2000
        (.axiosError .ETIMEDOUT)).1.status = Status.failed ∧
      (processImageAnalysis (createAnalysis sampleCreateParams 0) initialBreaker 1000 2000
        (.axiosError .ETIMEDOUT)).1.error =
        some "AI analysis timeout. The content may be too large or complex." ∧
      (processImageAnalysis (createAnalysis sampleCreateParams 0) initialBreaker 1000 2000
        (.axiosError .ETIMEDOUT)).1.result = none ∧
      (("AI analysis timeout. The content may be too large or complex." : String) ∈
          fixedFailureMessages ∨
        ∃ m, (CallOutcome.axiosError .ETIMEDOUT : CallOutcome ImagePayload) =
            CallOutcome.axiosError (.response 400 (some m)) ∧
          ("AI analysis timeout. The content may be too large or complex." : String) = m)) ∧
    ((processVideoAnalysis (createAnalysis sampleCreateParams 0) initialBreaker 1000 2000
        (.axiosError .ECONNREFUSED)).1.status = Status.failed ∧
      (processVideoAnalysis (createAnalysis sampleCreateParams 0) initialBreaker 1000 2000
        (.axiosError .ECONNREFUSED)).1.error = some "AI Engine is unavailable" ∧
      (processVideoAnalysis (createAnalysis sampleCreateParams 0) initialBreaker 1000 2000
        (.axiosError .ECONNREFUSED)).1.result = none ∧
      (("AI Engine is unavailable" : String) ∈ fixedFailureMessages ∨
        ∃ m, (CallOutcome.axiosError .ECONNREFUSED : CallOutcome VideoPayload) =
            CallOutcome.axiosError (.response 400 (some m)) ∧
          ("AI Engine is unavailable" : String) = m)) :=
  C2_failures_persist_failed sampleCreateParams 0 initialBreaker initialBreaker
    1000 2000 1000 2000 (.axiosError .ETIMEDOUT) (.axiosError .ECONNREFUSED)
    { message := "AI analysis timeout. The content may be too large or complex.",
      statusCode := 408, code := "ANALYSIS_TIMEOUT" }
    { message := "AI Engine is unavailable", statusCode := 503,
      code := "AI_ENGINE_UNAVAILABLE" }
    (by decide) (by decide)

/-- C9: along the orchestrator's writes — record creation and the single
terminal write of either processor — `result` is present exactly on
`completed` records and `error` exactly on `failed` ones. -/
theorem C9_result_error_invariant (p : CreateAnalysisParams) (createdAt : Int)
    (cb cb2 : CircuitBreakerState) (now completedNow now2 completedNow2 : Int)
    (oi : CallOutcome ImagePayload) (ov : CallOutcome VideoPayload) :
    resultErrorInvariant (createAnalysis p createdAt) ∧
    resultErrorInvariant
      (processImageAnalysis (createAnalysis p createdAt) cb now completedNow oi).1 ∧
    resultErrorInvariant
      (processVideoAnalysis (createAnalysis p createdAt) cb2 now2 completedNow2 ov).1 := by
  refine ⟨?_, ?_, ?_⟩
  · simp [resultErrorInvariant, createAnalysis]
  · cases hres : (analyzeImage cb now oi).result with
    | ok d =>
        rw [processImageAnalysis_ok (createAnalysis p createdAt) cb now completedNow oi d hres]
        simp [resultErrorInvariant, createAnalysis]
    | error e =>
        rw [processImageAnalysis_error (createAnalysis p createdAt) cb now completedNow oi
          e hres]
        simp [resultErrorInvariant, createAnalysis]
  · cases hres : (analyzeVideo cb2 now2 ov).result with
    | ok d =>
        rw [processVideoAnalysis_ok (createAnalysis p createdAt) cb2 now2 completedNow2 ov
          d hres]
        simp [resultErrorInvariant, createAnalysis]
    | error e =>
        rw [processVideoAnalysis_error (createAnalysis p createdAt) cb2 now2 completedNow2 ov
          e hres]
        simp [resultErrorInvariant, createAnalysis]

/-- C4 counterexample: a freshly created Submission's status is `processing` —
not a `pending` state, which the schema's status enum does not even contain. -/
theorem C4_no_pending_counterexample :
    (createAnalysis sampleCreateParams 0).status = Status.processing ∧
    (createAnalysis sampleCreateParams 0).status ≠ Status.completed ∧
    (createAnalysis sampleCreateParams 0).status ≠ Status.failed := by
  decide

/-- C4 (amended): every Submission is created directly in `processing` (the
schema enum is `processing | completed | failed`, with no `pending`), and the
orchestrator's single terminal write moves it forward to `completed` or
`failed`, with no backward transition. -/
theorem C4_status_lifecycle (p : CreateAnalysisParams) (createdAt : Int)
    (cb cb2 : CircuitBreakerState) (now completedNow now2 completedNow2 : Int)
    (oi : CallOutcome ImagePayload) (ov : CallOutcome VideoPayload) :
    (createAnalysis p createdAt).status = Status.processing ∧
    ((processImageAnalysis (createAnalysis p createdAt) cb now completedNow oi).1.status =
        Status.completed ∨
      (processImageAnalysis (createAnalysis p createdAt) cb now completedNow oi).1.status =
        Status.failed) ∧
    ((processVideoAnalysis (createAnalysis p createdAt) cb2 now2 completedNow2 ov).1.status =
        Status.completed ∨
      (processVideoAnalysis (createAnalysis p createdAt) cb2 now2 completedNow2 ov).1.status =
        Status.failed) := by
  refine ⟨rfl, ?_, ?_⟩
  · cases hres : (analyzeImage cb now oi).result with
    | ok d =>
        rw [processImageAnalysis_ok (createAnalysis p createdAt) cb now completedNow oi d hres]
        exact Or.inl rfl
    | error e =>
        rw [processImageAnalysis_error (createAnalysis p createdAt) cb now completedNow oi
          e hres]
        exact Or.inr rfl
  · cases hres : (analyzeVideo cb2 now2 ov).result with
    | ok d =>
        rw [processVideoAnalysis_ok (createAnalysis p createdAt) cb2 now2 completedNow2 ov
          d hres]
        exact Or.inl rfl
    | error e =>
        rw [processVideoAnalysis_error (createAnalysis p createdAt) cb2 now2 completedNow2 ov
          e hres]
        exact Or.inr rfl
